import Mathlib

/-!
Shallow embedding of the VRChat adult-status relay server
(`lolmaxz/vrc-adult-detection-UDON-api`): the admission middleware, the
cooldown manager, the VRChat client session state, the error translator
(`handleVRChatError`) and the `/checkAdultStatus` and `/health` route
handlers, together with theorems settling the specification claims.

Modelling conventions:
- HTTP query values are `QueryVal` (a single string or a repeated
  parameter parsed as an array, as express produces them); absent values
  are `Option.none`.
- The upstream VRChat API is a pure collaborator: the search endpoint is
  a function `String → List LimitedUser` and the detail fetch is a
  function `String → User`.  Upstream calls that can fail are exercised
  separately through the error-translator model.
- Outbound interactions of the handler are recorded in an `Effect`
  trace, so that claims about which upstream calls happen (and in which
  order) are statements about that trace.
- JavaScript timestamps are naturals (milliseconds); machine integers
  never overflow in the relevant ranges.
-/

namespace VRC

/-! ## Data model -/

/-- A search hit from `searchAllUsers` (vrc-ts `LimitedUser`): the fields the
server reads are the identifier and the display name. -/
structure LimitedUser where
  id : String
  displayName : String
deriving DecidableEq, Repr

/-- A full profile from `getUserById` (vrc-ts `User`): the server reads the
display name and the age-verification status.  The status is kept as its
runtime string representation. -/
structure User where
  id : String
  displayName : String
  ageVerificationStatus : String
deriving DecidableEq, Repr

namespace AgeVerificationStatus

/-- vrc-ts `AgeVerificationStatus.Hidden = "hidden"`. -/
def Hidden : String := "hidden"

/-- vrc-ts `AgeVerificationStatus.Verified_18_Plus = "18+"`. -/
def Verified_18_Plus : String := "18+"

end AgeVerificationStatus

/-- An express query-parameter value: a single string, or an array when the
parameter is repeated. -/
inductive QueryVal
  | str (s : String)
  | arr (l : List String)
deriving DecidableEq, Repr

/-- JavaScript truthiness of a query value: the empty string is falsy, every
other string and every array (even the empty one) is truthy. -/
def QueryVal.truthy : QueryVal → Bool
  | .str s => s ≠ ""
  | .arr _ => true

/-- JavaScript truthiness of an optional string (undefined and "" are falsy). -/
def jsTruthy : Option String → Bool
  | none => false
  | some s => s ≠ ""

/-- The error-response shape produced by the server (`ErrorResponse` in the
error handler module). -/
structure ErrorResponse where
  error : String
  statusCode : Option Nat := none
  errorType : Option String := none
deriving DecidableEq, Repr

/-- Body of a `/health` response (the timestamp field is omitted: no claim
concerns it). -/
structure HealthBody where
  status : String
  vrchatClientReady : Bool
  authenticatedUser : Option String := none
  error : Option String := none
deriving DecidableEq, Repr

/-- A JSON response body sent by the server. -/
inductive Body
  | err (e : ErrorResponse)
  | adult (ageVerified : String) (username : String)
  | health (h : HealthBody)
  | expressDefault
deriving DecidableEq, Repr

/-- Outbound interactions performed while serving a request: the cooldown
wait, the `searchAllUsers` call, and the `getUserById` detail fetch. -/
inductive Effect
  | cooldownWait
  | search (query : String)
  | fetchUser (userId : String)
deriving DecidableEq, Repr

/-! ## VRChat client session state (`vrchatClient.ts`)

The `VRChatAPI` handle is opaque; the stored current user is represented by
its display name (the only field the server reads from it). -/

/-- Mutable state of the `VRChatClient` singleton. -/
structure ClientState where
  api : Option Unit
  isAuthenticated : Bool
  currentUser : Option String
  initializationError : Option String
deriving DecidableEq, Repr

/-- The freshly constructed singleton: nothing set. -/
def initialState : ClientState :=
  { api := none, isAuthenticated := false, currentUser := none,
    initializationError := none }

/-- Message of the error thrown by `getApi` when unauthenticated. -/
def notAuthMessage : String := "VRChat client is not initialized or authenticated"

/-- `getApi()`: throws unless the api handle is set and authentication
succeeded. -/
def getApi (s : ClientState) : Except String Unit :=
  if s.api.isNone || !s.isAuthenticated then Except.error notAuthMessage
  else Except.ok ()

/-- `getCurrentUser()`. -/
def getCurrentUser (s : ClientState) : Option String := s.currentUser

/-- `isReady()`: authenticated, api handle set, current user set. -/
def isReady (s : ClientState) : Bool :=
  s.isAuthenticated && s.api.isSome && s.currentUser.isSome

/-- `getInitializationError()`. -/
def getInitErr (s : ClientState) : Option String := s.initializationError

/-- Outcome of one attempt of `initialize()`: success (authenticated as the
given display name), failure before the api handle is assigned (missing
credentials), or failure after it (login or current-user check failed). -/
inductive InitOutcome
  | successAs (displayName : String)
  | failBeforeApi (message : String)
  | failAfterApi (message : String)
deriving DecidableEq, Repr

/-- Whether the attempt succeeded. -/
def InitOutcome.isSuccess : InitOutcome → Bool
  | .successAs _ => true
  | _ => false

/-- State transition of one `initialize()` call.  If already authenticated
with an api handle it is a no-op.  Otherwise, on success all four fields are
set; on failure the catch block records the error and clears the
authenticated flag (the api handle keeps whatever value the try block gave
it, and the current user is untouched). -/
def initStep (s : ClientState) (o : InitOutcome) : ClientState :=
  if s.isAuthenticated && s.api.isSome then s
  else
    match o with
    | .successAs u =>
        { api := some (), isAuthenticated := true, currentUser := some u,
          initializationError := none }
    | .failBeforeApi e =>
        { s with isAuthenticated := false, initializationError := some e }
    | .failAfterApi e =>
        { s with api := some (), isAuthenticated := false,
                 initializationError := some e }

/-- The client state after a sequence of `initialize()` attempts starting
from the fresh singleton. -/
def runInit (os : List InitOutcome) : ClientState :=
  os.foldl initStep initialState

/-! ## Cooldown manager (`cooldownManager.ts`)

`waitForCooldown` runs on the Node event loop: the body from entry to the
`await` (or to the end, when no wait is needed) is one atomic step, and the
code after the `await` is another atomic step that runs when the timer has
fired.  A caller is `idle` before its call, `waiting r` while suspended on a
timer due at `r`, and `done t` once `lastRequestTime := Date.now()` has been
executed at time `t` (its recorded admission timestamp). -/

/-- The cooldown threshold (3000 ms). -/
def cooldownMs : Nat := 3000

/-- Status of one caller of `waitForCooldown`. -/
inductive CallerStatus
  | idle
  | waiting (resumeAt : Nat)
  | done (admittedAt : Nat)
deriving DecidableEq, Repr

/-- The gate system: current clock, the `lastRequestTime` field, and the
status of each caller. -/
structure GateSys where
  time : Nat
  last : Nat
  callers : List CallerStatus
deriving DecidableEq, Repr

/-- Scheduler actions: let the clock advance, start caller `i` (it runs the
body of `waitForCooldown` up to the `await` or to the end), or resume caller
`i` whose timer has fired. -/
inductive GateAction
  | advance (t : Nat)
  | start (i : Nat)
  | resume (i : Nat)
deriving DecidableEq, Repr

/-- One event-loop step; `none` when the action is not enabled.  `start`
reads `lastRequestTime`; if less than 3000 ms have elapsed the caller
suspends until exactly the remaining time has passed, otherwise it records
the admission synchronously.  `resume` runs the continuation after the
timer: it records `lastRequestTime := Date.now()`. -/
def gateStep (s : GateSys) : GateAction → Option GateSys
  | .advance t =>
      if s.time ≤ t then some { s with time := t } else none
  | .start i =>
      match s.callers.get? i with
      | some CallerStatus.idle =>
          let timeSince := s.time - s.last
          if timeSince < cooldownMs then
            let w := CallerStatus.waiting (s.time + (cooldownMs - timeSince))
            some { s with callers := s.callers.set i w }
          else
            some { s with last := s.time, callers := s.callers.set i (CallerStatus.done s.time) }
      | _ => none
  | .resume i =>
      match s.callers.get? i with
      | some (CallerStatus.waiting r) =>
          if r ≤ s.time then
            some { s with last := s.time, callers := s.callers.set i (CallerStatus.done s.time) }
          else none
      | _ => none

/-- Run a schedule of event-loop actions. -/
def gateRun (s : GateSys) (as : List GateAction) : Option GateSys :=
  as.foldl (fun os a => os.bind (fun st => gateStep st a)) (some s)

/-- The recorded admission timestamps of the callers that have completed. -/
def admissionTimes (s : GateSys) : List Nat :=
  s.callers.filterMap (fun c =>
    match c with
    | CallerStatus.done t => some t
    | _ => none)

/-- The pairwise spacing invariant claimed of the gate: any two recorded
admission timestamps are at least 3000 ms apart. -/
def spacingInvariant (s : GateSys) : Prop :=
  ∀ i j a b, i < j → (admissionTimes s).get? i = some a →
    (admissionTimes s).get? j = some b →
    cooldownMs ≤ a - b ∨ cooldownMs ≤ b - a

/-! ## Error translator (`errorHandler.ts`) -/

/-- The error values distinguished by `handleVRChatError`, in the order of
its `instanceof` dispatch.  An `axiosLike` value carries an optional
`statusCode` field, an optional `response.status`, whether it is an
`Error` instance, and its message. -/
inductive VRCError
  | requestError (statusCode : Nat) (message : String)
  | userNotAuthenticated
  | badRequestParameter (message : String)
  | invalidUserAgent
  | totpRequired
  | emailOtpRequired
  | cookiesExpired
  | cookiesNotFound
  | axiosLike (statusCode : Option Nat) (responseStatus : Option Nat)
      (isError : Bool) (message : String)
  | genericError (message : String)
  | unknownValue
deriving DecidableEq, Repr

/-- The fall-through tail of `handleVRChatError`: the generic-`Error` branch
(with its network-message sniffing) and the unknown-value branch. -/
def genericBranch (isErr : Bool) (message : String) : Nat × ErrorResponse :=
  if isErr then
    if message.containsSubstr "network" || message.containsSubstr "ECONNREFUSED"
        || message.containsSubstr "timeout" then
      (503, { error := "VRChat API is unavailable", errorType := some "NetworkError" })
    else
      (500, { error := message, errorType := some "Error" })
  else
    (500, { error := "An unknown error occurred", errorType := some "UnknownError" })

/-- `handleVRChatError`: maps any failure to an HTTP status plus response
body, following the source branch by branch. -/
def handleVRChatError : VRCError → Nat × ErrorResponse
  | .requestError sc msg =>
      let httpStatus : Nat :=
        if sc = 401 then 401
        else if sc = 403 then 403
        else if sc = 404 then 404
        else if sc = 429 then 429
        else if 400 ≤ sc ∧ sc < 500 then sc
        else if 500 ≤ sc then 502
        else 500
      (httpStatus, { error := msg, statusCode := some sc, errorType := some "RequestError" })
  | .userNotAuthenticated =>
      (401, { error := "VRChat client is not authenticated", statusCode := some 401,
              errorType := some "UserNotAuthenticated" })
  | .badRequestParameter msg =>
      (400, { error := if msg = "" then "Invalid request parameter" else msg,
              errorType := some "BadRequestParameter" })
  | .invalidUserAgent =>
      (500, { error := "Invalid user agent configuration",
              errorType := some "InvalidUserAgent" })
  | .totpRequired =>
      (500, { error := "2FA authentication required - check configuration",
              errorType := some "TOTPRequired" })
  | .emailOtpRequired =>
      (500, { error := "2FA authentication required - check configuration",
              errorType := some "EmailOtpRequired" })
  | .cookiesExpired =>
      (500, { error := "Cookie authentication issue - may need to re-authenticate",
              errorType := some "CookiesExpired" })
  | .cookiesNotFound =>
      (500, { error := "Cookie authentication issue - may need to re-authenticate",
              errorType := some "CookiesNotFound" })
  | .axiosLike sc rs isErr msg =>
      match sc.orElse (fun _ => rs) with
      | some code =>
          if code ≠ 0 then
            ((if 400 ≤ code ∧ code < 600 then code else 500),
             { error := if isErr then msg else "HTTP request failed",
               statusCode := some code, errorType := some "HttpError" })
          else genericBranch isErr msg
      | none => genericBranch isErr msg
  | .genericError msg => genericBranch true msg
  | .unknownValue => genericBranch false ""

/-! ## Admission middleware (the validation middleware in the server file) -/

/-- `ALLOWED_USER_AGENTS`. -/
def ALLOWED_USER_AGENTS : List String :=
  ["UnityPlayer/2022.3.22f1-DWR (UnityWebRequest/1.0, libcurl/8.5.0-DEV)",
   "UnityPlayer/2022.3.22f1 (UnityWebRequest/1.0, libcurl/8.5.0-DEV)"]

/-- `ALLOWED_UNITY_VERSIONS`. -/
def ALLOWED_UNITY_VERSIONS : List String := ["2022.3.22f1-DWR", "2022.3.22f1"]

/-- `ALLOWED_CALLED_FROM`. -/
def ALLOWED_CALLED_FROM : List String := ["loveworld", "maxieworld"]

/-- An inbound HTTP request as the middleware and the route handlers see it:
path, the two headers it reads, the `calledfrom` query value, the
`x-called-from` header, and the `username` query value. -/
structure Request where
  path : String
  userAgent : Option String
  unityVersion : Option String
  calledfromQuery : Option QueryVal
  calledFromHeader : Option String
  username : Option QueryVal
deriving DecidableEq, Repr

/-- `req.query.calledfrom || req.get("x-called-from")`: the query value wins
when truthy (arrays are always truthy, the empty string is not), otherwise
the header is used. -/
def resolveCalledFrom (q : Option QueryVal) (h : Option String) : Option QueryVal :=
  match q with
  | some v => if v.truthy then some v else h.map QueryVal.str
  | none => h.map QueryVal.str

/-- The `calledfrom` admission test: `!calledFrom || typeof calledFrom !==
"string" || !ALLOWED_CALLED_FROM.includes(calledFrom)` negated. -/
def calledFromCheck : Option QueryVal → Bool
  | none => false
  | some (QueryVal.arr _) => false
  | some (QueryVal.str s) => (s ≠ "" : Bool) && ALLOWED_CALLED_FROM.contains s

/-- The user-agent admission test (`!userAgent ||
!ALLOWED_USER_AGENTS.includes(userAgent)` negated). -/
def userAgentCheck (ua : Option String) : Bool :=
  jsTruthy ua && ALLOWED_USER_AGENTS.contains (ua.getD "")

/-- The `x-unity-version` admission test. -/
def unityVersionCheck (uv : Option String) : Bool :=
  jsTruthy uv && ALLOWED_UNITY_VERSIONS.contains (uv.getD "")

/-- Result of the admission middleware: pass to the next handler, or respond
immediately. -/
inductive AdmissionResult
  | pass
  | reject (status : Nat) (body : ErrorResponse)
deriving DecidableEq, Repr

/-- The rejection body (`{error: "Not found"}`). -/
def notFoundBody : ErrorResponse := { error := "Not found" }

/-- The validation middleware: `/health` is exempt; otherwise the
user-agent, unity-version and calledfrom checks run in order and any
failure responds 404 with `notFoundBody`. -/
def admission (req : Request) : AdmissionResult :=
  if req.path = "/health" then AdmissionResult.pass
  else if !userAgentCheck req.userAgent then AdmissionResult.reject 404 notFoundBody
  else if !unityVersionCheck req.unityVersion then AdmissionResult.reject 404 notFoundBody
  else if !calledFromCheck (resolveCalledFrom req.calledfromQuery req.calledFromHeader) then
    AdmissionResult.reject 404 notFoundBody
  else AdmissionResult.pass

/-! ## `/checkAdultStatus` handler -/

/-- The classification of step 3 of the handler: `"true"` when the fetched
profile's `ageVerificationStatus` is the 18+ marker, `"false"` otherwise. -/
def classify (status : String) : String :=
  if status = AgeVerificationStatus.Verified_18_Plus then "true" else "false"

/-- The `username` validation of the handler: `!displayName || typeof
displayName !== "string"`. -/
def badUsername : Option QueryVal → Bool
  | none => true
  | some (QueryVal.str s) => s = ""
  | some (QueryVal.arr _) => true

/-- The exact-match scan loop of the handler: walk the search results in
order; on the first candidate whose `displayName` equals the requested name
(case-sensitive string equality), fetch its full profile and stop.  Returns
the matched full profile (if any) together with the detail-fetch effects
performed. -/
def scanLoop (displayName : String) (fetch : String → User) :
    List LimitedUser → Option User × List Effect
  | [] => (none, [])
  | c :: rest =>
      if c.displayName = displayName then
        (some (fetch c.id), [Effect.fetchUser c.id])
      else scanLoop displayName fetch rest

/-- Bad-parameter response body of the handler. -/
def badUsernameBody : ErrorResponse :=
  { error := "Username query parameter is required and must be a string" }

/-- The `GET /checkAdultStatus` handler.  `search` is the upstream
`searchAllUsers` call (already restricted to the fields and page the server
requests) and `fetch` is `getUserById`.  Returns the HTTP response together
with the trace of outbound effects. -/
def checkAdultStatus (st : ClientState) (username : Option QueryVal)
    (search : String → List LimitedUser) (fetch : String → User) :
    (Nat × Body) × List Effect :=
  if badUsername username then
    ((400, Body.err badUsernameBody), [])
  else
    match username with
    | some (QueryVal.str name) =>
        match getApi st with
        | Except.error msg =>
            let r := handleVRChatError (VRCError.genericError msg)
            ((r.1, Body.err r.2), [Effect.cooldownWait])
        | Except.ok _ =>
            let results := search name
            if results.length = 0 then
              ((404, Body.err { error := "User not found" }),
               [Effect.cooldownWait, Effect.search name])
            else
              match scanLoop name fetch results with
              | (some matchedUser, fetches) =>
                  ((200, Body.adult (classify matchedUser.ageVerificationStatus)
                      matchedUser.displayName),
                   [Effect.cooldownWait, Effect.search name] ++ fetches)
              | (none, fetches) =>
                  ((404, Body.err { error := "User not found with exact displayName match" }),
                   [Effect.cooldownWait, Effect.search name] ++ fetches)
    | _ => ((400, Body.err badUsernameBody), [])

/-! ## `/health` handler -/

/-- The `GET /health` handler (timestamp omitted). -/
def healthResponse (st : ClientState) : Nat × Body :=
  if !isReady st then
    (503, Body.health
      { status := "unhealthy", vrchatClientReady := false,
        error := some ((getInitErr st).getD "VRChat client not initialized") })
  else
    (200, Body.health
      { status := "healthy", vrchatClientReady := true,
        authenticatedUser :=
          match getCurrentUser st with
          | some name => some name
          | none => none })

/-! ## Server composition -/

/-- The composed server: the admission middleware runs first (responding
directly on rejection, with no other component touched), then the route
handlers; unknown routes get the express default 404. -/
def server (req : Request) (st : ClientState) (search : String → List LimitedUser)
    (fetch : String → User) : (Nat × Body) × List Effect :=
  match admission req with
  | AdmissionResult.reject status body => ((status, Body.err body), [])
  | AdmissionResult.pass =>
      if req.path = "/health" then (healthResponse st, [])
      else if req.path = "/checkAdultStatus" then
        checkAdultStatus st req.username search fetch
      else ((404, Body.expressDefault), [])

/-! ## Concrete fixtures used by witnesses -/

/-- A client state after a successful login. -/
def readyState : ClientState :=
  { api := some (), isAuthenticated := true, currentUser := some "BotAccount",
    initializationError := none }

/-- Upstream search returning the candidates of the spec example. -/
def aliceSearch : String → List LimitedUser := fun _ =>
  [{ id := "usr_1", displayName := "alice" },
   { id := "usr_2", displayName := "Alice" },
   { id := "usr_3", displayName := "Alice2" }]

/-- Upstream detail fetch returning an 18+-verified profile named Alice. -/
def aliceFetch : String → User := fun i =>
  { id := i, displayName := "Alice", ageVerificationStatus := "18+" }

/-- A request that passes all three admission checks. -/
def sampleReq : Request :=
  { path := "/checkAdultStatus",
    userAgent := some "UnityPlayer/2022.3.22f1 (UnityWebRequest/1.0, libcurl/8.5.0-DEV)",
    unityVersion := some "2022.3.22f1",
    calledfromQuery := some (QueryVal.str "loveworld"),
    calledFromHeader := none,
    username := some (QueryVal.str "Alice") }

/-! ## Helper lemmas -/

/-- The scan loop returns the first exact match of the list (in order) and
performs exactly the detail fetch of that candidate. -/
theorem scanLoop_eq_find (name : String) (fetch : String → User) (l : List LimitedUser) :
    scanLoop name fetch l =
      match l.find? (fun cand => cand.displayName == name) with
      | none => (none, [])
      | some c => (some (fetch c.id), [Effect.fetchUser c.id]) := by
  induction l with
  | nil => rfl
  | cons c rest ih =>
      by_cases h : c.displayName = name
      · simp [scanLoop, List.find?, h]
      · have hb : (c.displayName == name) = false := beq_eq_false_iff_ne.mpr h
        simp [scanLoop, List.find?, h, ih, hb]

/-- Reduction of the handler when a first exact match exists. -/
theorem checkAdultStatus_found (st : ClientState) (name : String)
    (search : String → List LimitedUser) (fetch : String → User) (c : LimitedUser)
    (hname : name ≠ "") (hapi : getApi st = Except.ok ())
    (hc : (search name).find? (fun cand => cand.displayName == name) = some c) :
    checkAdultStatus st (some (QueryVal.str name)) search fetch =
      ((200, Body.adult (classify (fetch c.id).ageVerificationStatus)
          (fetch c.id).displayName),
       [Effect.cooldownWait, Effect.search name, Effect.fetchUser c.id]) := by
  have hne : search name ≠ [] := by
    intro h0
    rw [h0] at hc
    simp [List.find?] at hc
  have hlen : ¬(search name).length = 0 := by
    simpa [List.length_eq_zero] using hne
  simp [checkAdultStatus, badUsername, hname, hapi, hlen, scanLoop_eq_find, hc]

/-- The admission middleware either passes or responds 404 with the uniform
not-found body: no other outcome exists. -/
theorem admission_dichotomy (req : Request) :
    admission req = AdmissionResult.pass ∨
    admission req = AdmissionResult.reject 404 notFoundBody := by
  unfold admission
  split_ifs <;> simp

/-! ## Claims -/

/-- C1: for every search result list, the resolver scans the candidates in
the order returned, selects the first candidate whose display name is an
exact, case-sensitive match to the requested name, fetches the full profile
by identifier only for that candidate, and ignores all remaining candidates
(the effect trace holds exactly one detail fetch, for the first match). -/
theorem resolver_scan_and_stop (st : ClientState) (name : String)
    (search : String → List LimitedUser) (fetch : String → User) (c : LimitedUser)
    (hname : name ≠ "") (hapi : getApi st = Except.ok ())
    (hc : (search name).find? (fun cand => cand.displayName == name) = some c) :
    checkAdultStatus st (some (QueryVal.str name)) search fetch =
      ((200, Body.adult (classify (fetch c.id).ageVerificationStatus)
          (fetch c.id).displayName),
       [Effect.cooldownWait, Effect.search name, Effect.fetchUser c.id]) :=
  checkAdultStatus_found st name search fetch c hname hapi hc

/-- C1 witness: on the spec example (candidates alice, Alice, Alice2 for a
search on Alice) only the exact-case candidate is fetched. -/
theorem resolver_scan_and_stop_witness :
    (("Alice" : String) ≠ "" ∧ getApi readyState = Except.ok () ∧
      (aliceSearch "Alice").find? (fun cand => cand.displayName == "Alice") =
        some { id := "usr_2", displayName := "Alice" }) ∧
    checkAdultStatus readyState (some (QueryVal.str "Alice")) aliceSearch aliceFetch =
      ((200, Body.adult "true" "Alice"),
       [Effect.cooldownWait, Effect.search "Alice", Effect.fetchUser "usr_2"]) := by
  refine ⟨⟨by decide, rfl, rfl⟩, ?_⟩
  have h := resolver_scan_and_stop readyState "Alice" aliceSearch aliceFetch
    { id := "usr_2", displayName := "Alice" } (by decide) rfl rfl
  simpa [aliceFetch, classify, AgeVerificationStatus.Verified_18_Plus] using h

/-- C2: the 200 response classifies the resolved profile as verified-adult
(field value "true") exactly when its verification field is the 18+ marker;
the hidden marker (like every other value) yields "false". -/
theorem age_verified_iff_18plus (st : ClientState) (name : String)
    (search : String → List LimitedUser) (fetch : String → User) (c : LimitedUser)
    (hname : name ≠ "") (hapi : getApi st = Except.ok ())
    (hc : (search name).find? (fun cand => cand.displayName == name) = some c) :
    ((checkAdultStatus st (some (QueryVal.str name)) search fetch).1 =
        (200, Body.adult "true" (fetch c.id).displayName) ↔
      (fetch c.id).ageVerificationStatus = AgeVerificationStatus.Verified_18_Plus) ∧
    ((fetch c.id).ageVerificationStatus ≠ AgeVerificationStatus.Verified_18_Plus →
      (checkAdultStatus st (some (QueryVal.str name)) search fetch).1 =
        (200, Body.adult "false" (fetch c.id).displayName)) ∧
    AgeVerificationStatus.Hidden ≠ AgeVerificationStatus.Verified_18_Plus := by
  have h := checkAdultStatus_found st name search fetch c hname hapi hc
  rw [h]
  refine ⟨?_, ?_, by decide⟩
  · constructor
    · intro he
      simp only [Prod.mk.injEq, Body.adult.injEq] at he
      by_contra hne
      simp [classify, hne] at he
    · intro hv
      simp [classify, hv]
  · intro hne
    simp [classify, hne]

/-- C2 witness: an 18+ profile is reported with the string "true". -/
theorem age_verified_iff_18plus_witness :
    (("Alice" : String) ≠ "" ∧ getApi readyState = Except.ok () ∧
      (aliceSearch "Alice").find? (fun cand => cand.displayName == "Alice") =
        some { id := "usr_2", displayName := "Alice" } ∧
      (aliceFetch "usr_2").ageVerificationStatus = AgeVerificationStatus.Verified_18_Plus) ∧
    (checkAdultStatus readyState (some (QueryVal.str "Alice")) aliceSearch aliceFetch).1 =
      (200, Body.adult "true" "Alice") := by
  refine ⟨⟨by decide, rfl, rfl, rfl⟩, ?_⟩
  have h := (age_verified_iff_18plus readyState "Alice" aliceSearch aliceFetch
    { id := "usr_2", displayName := "Alice" } (by decide) rfl rfl).1.mpr rfl
  simpa [aliceFetch] using h

/-- C3: the check-and-update of `waitForCooldown` is not atomic.  Under the
event-loop semantics, two callers entering at 1000 ms and 2000 ms (with
`lastRequestTime = 0`) both read the stale timestamp while the first is
suspended on its timer, and both are admitted with recorded timestamp
3000 ms — pairwise spacing 0 ms, violating the 3000 ms spacing invariant. -/
theorem cooldown_concurrent_race :
    gateRun { time := 0, last := 0, callers := [CallerStatus.idle, CallerStatus.idle] }
      [GateAction.advance 1000, GateAction.start 0, GateAction.advance 2000,
       GateAction.start 1, GateAction.advance 3000, GateAction.resume 0,
       GateAction.resume 1] =
      some { time := 3000, last := 3000, callers := [CallerStatus.done 3000, CallerStatus.done 3000] } ∧
    admissionTimes { time := 3000, last := 3000, callers := [CallerStatus.done 3000, CallerStatus.done 3000] } = [3000, 3000] ∧
    ¬spacingInvariant { time := 3000, last := 3000, callers := [CallerStatus.done 3000, CallerStatus.done 3000] } := by
  refine ⟨by decide, by decide, ?_⟩
  intro h
  have h2 := h 0 1 3000 3000 (by decide) rfl rfl
  rcases h2 with h2 | h2 <;> simp [cooldownMs] at h2

/-- C4 counterexample: the two not-found failures both return 404 but their
bodies differ, so they do not surface identically to the caller. -/
theorem notfound_messages_differ :
    (checkAdultStatus readyState (some (QueryVal.str "Alice")) (fun _ => []) aliceFetch).1 =
      (404, Body.err { error := "User not found" }) ∧
    (checkAdultStatus readyState (some (QueryVal.str "Alice"))
        (fun _ => [{ id := "u1", displayName := "alice" }]) aliceFetch).1 =
      (404, Body.err { error := "User not found with exact displayName match" }) ∧
    ("User not found" : String) ≠ "User not found with exact displayName match" := by
  refine ⟨rfl, rfl, by decide⟩

/-- C4 (amended): both not-found failures of the resolver produce status
404, but with distinct messages — "User not found" when the search returns
zero candidates, "User not found with exact displayName match" when
candidates exist but none matches exactly. -/
theorem notfound_both_404 (st : ClientState) (name : String)
    (search : String → List LimitedUser) (fetch : String → User)
    (hname : name ≠ "") (hapi : getApi st = Except.ok ()) :
    (search name = [] →
      (checkAdultStatus st (some (QueryVal.str name)) search fetch).1 =
        (404, Body.err { error := "User not found" })) ∧
    (search name ≠ [] →
      (search name).find? (fun cand => cand.displayName == name) = none →
      (checkAdultStatus st (some (QueryVal.str name)) search fetch).1 =
        (404, Body.err { error := "User not found with exact displayName match" })) := by
  constructor
  · intro h0
    simp [checkAdultStatus, badUsername, hname, hapi, h0]
  · intro hne hnone
    have hlen : ¬(search name).length = 0 := by
      simpa [List.length_eq_zero] using hne
    simp [checkAdultStatus, badUsername, hname, hapi, hlen, scanLoop_eq_find, hnone]

/-- C4 witness: concrete zero-candidate and no-exact-match searches. -/
theorem notfound_both_404_witness :
    (("Alice" : String) ≠ "" ∧ getApi readyState = Except.ok ()) ∧
    (checkAdultStatus readyState (some (QueryVal.str "Alice")) (fun _ => []) aliceFetch).1 =
      (404, Body.err { error := "User not found" }) ∧
    (checkAdultStatus readyState (some (QueryVal.str "Alice"))
        (fun _ => [{ id := "u1", displayName := "alice" }]) aliceFetch).1 =
      (404, Body.err { error := "User not found with exact displayName match" }) := by
  refine ⟨⟨by decide, rfl⟩, ?_, ?_⟩
  · exact (notfound_both_404 readyState "Alice" (fun _ => []) aliceFetch
      (by decide) rfl).1 rfl
  · exact (notfound_both_404 readyState "Alice"
      (fun _ => [{ id := "u1", displayName := "alice" }]) aliceFetch
      (by decide) rfl).2 (by decide) rfl

/-- C5: every request outside `/health` that fails any admission check is
answered 404 with exactly the body of `notFoundBody`, whichever check
failed, and the composed server performs no effect and touches no other
component. -/
theorem admission_reject_uniform (req : Request) (st : ClientState)
    (search : String → List LimitedUser) (fetch : String → User)
    (_hp : req.path ≠ "/health") (h : admission req ≠ AdmissionResult.pass) :
    admission req = AdmissionResult.reject 404 notFoundBody ∧
    server req st search fetch = ((404, Body.err notFoundBody), []) := by
  rcases admission_dichotomy req with hd | hd
  · exact absurd hd h
  · exact ⟨hd, by simp [server, hd]⟩

/-- C5 witness: a request with a non-allow-listed user agent (all other
checks passing) receives the uniform 404 body and triggers no upstream
effect. -/
theorem admission_reject_uniform_witness :
    (({ sampleReq with userAgent := some "curl/8.5.0" } : Request).path ≠ "/health" ∧
      admission { sampleReq with userAgent := some "curl/8.5.0" } ≠ AdmissionResult.pass) ∧
    server { sampleReq with userAgent := some "curl/8.5.0" } readyState aliceSearch aliceFetch =
      ((404, Body.err notFoundBody), []) := by
  refine ⟨⟨by decide, by decide⟩, ?_⟩
  exact (admission_reject_uniform { sampleReq with userAgent := some "curl/8.5.0" }
    readyState aliceSearch aliceFetch (by decide) (by decide)).2

/-- C6 counterexample: an upstream failure carried as an axios-like error
with status 503 is passed through as 503, not translated to 502. -/
theorem upstream_5xx_passthrough :
    handleVRChatError (VRCError.axiosLike (some 503) none true "Service Unavailable") =
      (503, { error := "Service Unavailable", statusCode := some 503,
              errorType := some "HttpError" }) ∧
    (503 : Nat) ≠ 502 := by
  refine ⟨rfl, by decide⟩

/-- C6 (amended): upstream failures reported as typed `RequestError` with a
5xx status are translated to 502 and never passed through as-is; axios-like
errors carrying a 5xx status, however, are passed through unchanged. -/
theorem upstream_5xx_translation (sc : Nat) (msg : String) (h : 500 ≤ sc) :
    (handleVRChatError (VRCError.requestError sc msg)).1 = 502 ∧
    (∀ code rs isErr m, 500 ≤ code → code < 600 →
      (handleVRChatError (VRCError.axiosLike (some code) rs isErr m)).1 = code) := by
  constructor
  · simp only [handleVRChatError]
    split_ifs <;> omega
  · intro code rs isErr m hc1 hc2
    simp only [handleVRChatError, Option.orElse]
    split_ifs <;> omega

/-- C6 witness: `RequestError` 500 maps to 502 while an axios-like 503 stays
503. -/
theorem upstream_5xx_translation_witness :
    (500 ≤ 500 ∧ 500 ≤ 503 ∧ 503 < 600) ∧
    (handleVRChatError (VRCError.requestError 500 "internal error")).1 = 502 ∧
    (handleVRChatError (VRCError.axiosLike (some 503) none true "unavailable")).1 = 503 := by
  refine ⟨⟨by decide, by decide, by decide⟩, ?_, ?_⟩
  · exact (upstream_5xx_translation 500 "internal error" (by decide)).1
  · exact (upstream_5xx_translation 500 "internal error" (by decide)).2
      503 none true "unavailable" (by decide) (by decide)

/-- After a failed attempt (starting from an unauthenticated state) the
client is still unauthenticated and the failure reason is recorded. -/
theorem initStep_fail (s : ClientState) (o : InitOutcome)
    (ho : o.isSuccess = false) (hs : s.isAuthenticated = false) :
    (initStep s o).isAuthenticated = false ∧
    (initStep s o).initializationError.isSome = true := by
  cases o with
  | successAs u => simp [InitOutcome.isSuccess] at ho
  | failBeforeApi e => simp [initStep, hs]
  | failAfterApi e => simp [initStep, hs]

/-- A run of failing attempts keeps the client unauthenticated and, once at
least one attempt has run, leaves the failure reason recorded. -/
theorem foldl_initStep_fail (os : List InitOutcome) :
    ∀ s : ClientState, s.isAuthenticated = false →
      (∀ o ∈ os, o.isSuccess = false) →
      (os.foldl initStep s).isAuthenticated = false ∧
      (os ≠ [] → (os.foldl initStep s).initializationError.isSome = true) := by
  induction os with
  | nil =>
      intro s hs _
      exact ⟨hs, by simp⟩
  | cons o rest ih =>
      intro s hs hall
      have ho := hall o (by simp)
      have h1 := initStep_fail s o ho hs
      have h2 := ih (initStep s o) h1.1 (fun o' ho' => hall o' (by simp [ho']))
      refine ⟨h2.1, fun _ => ?_⟩
      by_cases hr : rest = []
      · subst hr
        simpa using h1.2
      · simpa using h2.2 hr

/-- C7: if `initialize()` has never succeeded — any sequence of failed
attempts, including none — the session manager is not partially ready:
`isReady` reports false, `getApi` fails with the not-authenticated error,
and (after at least one failed attempt) the failure reason is recorded. -/
theorem never_succeeded_not_ready (os : List InitOutcome)
    (h : ∀ o ∈ os, o.isSuccess = false) :
    isReady (runInit os) = false ∧
    getApi (runInit os) = Except.error notAuthMessage ∧
    (os ≠ [] → (runInit os).initializationError.isSome = true) := by
  have hf := foldl_initStep_fail os initialState rfl h
  have hauth : (runInit os).isAuthenticated = false := hf.1
  refine ⟨?_, ?_, hf.2⟩
  · simp [isReady, hauth]
  · simp [getApi, hauth]

/-- C7 witness: after one failed attempt (missing credentials) the client is
not ready and `getApi` raises the not-authenticated error. -/
theorem never_succeeded_not_ready_witness :
    (∀ o ∈ [InitOutcome.failBeforeApi "missing credentials"], o.isSuccess = false) ∧
    isReady (runInit [InitOutcome.failBeforeApi "missing credentials"]) = false ∧
    getApi (runInit [InitOutcome.failBeforeApi "missing credentials"]) =
      Except.error notAuthMessage ∧
    (runInit [InitOutcome.failBeforeApi "missing credentials"]).initializationError.isSome = true := by
  have hall : ∀ o ∈ [InitOutcome.failBeforeApi "missing credentials"], o.isSuccess = false := by
    intro o ho
    simp at ho
    simp [ho, InitOutcome.isSuccess]
  have h := never_succeeded_not_ready [InitOutcome.failBeforeApi "missing credentials"] hall
  exact ⟨hall, h.1, h.2.1, h.2.2 (by simp)⟩

/-- C8: a `/checkAdultStatus` request whose username query value is missing
or not a single string is answered 400 with no upstream interaction: no
cooldown wait, no search call and no detail fetch appear in the effect
trace. -/
theorem bad_username_rejected_early (st : ClientState) (q : Option QueryVal)
    (search : String → List LimitedUser) (fetch : String → User)
    (h : q = none ∨ ∃ l, q = some (QueryVal.arr l)) :
    checkAdultStatus st q search fetch = ((400, Body.err badUsernameBody), []) := by
  rcases h with h | ⟨l, h⟩ <;> subst h <;> rfl

/-- C8 witness: a missing username is rejected with 400 and an empty effect
trace. -/
theorem bad_username_rejected_early_witness :
    ((none : Option QueryVal) = none ∨ ∃ l, (none : Option QueryVal) = some (QueryVal.arr l)) ∧
    checkAdultStatus readyState none aliceSearch aliceFetch =
      ((400, Body.err badUsernameBody), []) := by
  refine ⟨Or.inl rfl, ?_⟩
  exact bad_username_rejected_early readyState none aliceSearch aliceFetch (Or.inl rfl)

/-- C9: when a truthy `calledfrom` query value is supplied, the
`x-called-from` header is ignored entirely; a query value that is not a
single string (a repeated parameter parsed as an array) is rejected 404
even when the ignored header is allow-listed; an empty-string query value
falls back to the header. -/
theorem calledfrom_precedence :
    (∀ (req : Request) (v : QueryVal), req.calledfromQuery = some v → v.truthy = true →
      ∀ h1 h2 : Option String,
        admission { req with calledFromHeader := h1 } =
          admission { req with calledFromHeader := h2 }) ∧
    (∀ (req : Request) (l : List String) (hv : String),
      req.path ≠ "/health" →
      req.calledfromQuery = some (QueryVal.arr l) →
      req.calledFromHeader = some hv →
      ALLOWED_CALLED_FROM.contains hv = true →
      userAgentCheck req.userAgent = true →
      unityVersionCheck req.unityVersion = true →
      admission req = AdmissionResult.reject 404 notFoundBody) ∧
    (∀ req : Request, req.calledfromQuery = some (QueryVal.str "") →
      admission req = admission { req with calledfromQuery := none }) := by
  refine ⟨?_, ?_, ?_⟩
  · intro req v hq hv h1 h2
    simp [admission, resolveCalledFrom, hq, hv]
  · intro req l hv hp hq hh _hmem hua huv
    simp [admission, hp, hua, huv, resolveCalledFrom, hq, QueryVal.truthy, calledFromCheck]
  · intro req hq
    simp [admission, resolveCalledFrom, hq, QueryVal.truthy]

/-- C9 witness: a repeated `calledfrom` query parameter is rejected 404 even
though the header value is allow-listed; an empty query value with the same
header passes. -/
theorem calledfrom_precedence_witness :
    (({ sampleReq with calledfromQuery := some (QueryVal.arr ["loveworld", "loveworld"]), calledFromHeader := some "loveworld" } : Request).path ≠ "/health" ∧
      ALLOWED_CALLED_FROM.contains "loveworld" = true ∧
      userAgentCheck sampleReq.userAgent = true ∧
      unityVersionCheck sampleReq.unityVersion = true) ∧
    admission { sampleReq with calledfromQuery := some (QueryVal.arr ["loveworld", "loveworld"]), calledFromHeader := some "loveworld" } =
      AdmissionResult.reject 404 notFoundBody := by
  refine ⟨⟨by decide, by decide, by decide, by decide⟩, ?_⟩
  exact calledfrom_precedence.2.1
    { sampleReq with calledfromQuery := some (QueryVal.arr ["loveworld", "loveworld"]), calledFromHeader := some "loveworld" }
    ["loveworld", "loveworld"] "loveworld" (by decide) rfl rfl (by decide) (by decide) (by decide)

/-- C10: `isReady` reports true only when the stored current user is
present, so a 200 `/health` response always carries the authenticated
display name — the null fallback of the healthy branch is unreachable. -/
theorem health_200_authenticated_user (s : ClientState) :
    (isReady s = true → getCurrentUser s ≠ none) ∧
    ((healthResponse s).1 = 200 →
      ∃ u, getCurrentUser s = some u ∧
        (healthResponse s).2 = Body.health
          { status := "healthy", vrchatClientReady := true, authenticatedUser := some u }) := by
  constructor
  · intro h
    simp [isReady] at h
    simp [getCurrentUser]
    exact Option.isSome_iff_ne_none.mp h.2
  · intro h200
    cases hr : isReady s with
    | false =>
        exfalso
        simp [healthResponse, hr] at h200
    | true =>
        have hcu : s.currentUser.isSome = true := by
          simp [isReady] at hr
          exact hr.2
        obtain ⟨u, hu⟩ := Option.isSome_iff_exists.mp hcu
        refine ⟨u, by simp [getCurrentUser, hu], ?_⟩
        simp [healthResponse, hr, getCurrentUser, hu]

/-- C10 witness: a ready client state yields a 200 health response with the
authenticated display name set. -/
theorem health_200_authenticated_user_witness :
    (isReady readyState = true ∧ (healthResponse readyState).1 = 200) ∧
    getCurrentUser readyState ≠ none ∧
    (∃ u, getCurrentUser readyState = some u ∧
      (healthResponse readyState).2 = Body.health
        { status := "healthy", vrchatClientReady := true, authenticatedUser := some u }) := by
  refine ⟨⟨rfl, rfl⟩, ?_, ?_⟩
  · exact (health_200_authenticated_user readyState).1 rfl
  · exact (health_200_authenticated_user readyState).2 rfl

end VRC
